import Mathlib

/-!
Verification of the core assertion-and-failure-reporting engine of the
spectral fluent-assertion library (src/lib.rs, src/option.rs).

Modelling conventions:
* A Rust `Spec<'s, S>` holds `subject: &'s S`; here a `Spec S` holds the
  subject by value (the borrow is read-only, so the value model is faithful).
* Rust's `panic!` is modelled by `Except String`: a raised failure is
  `Except.error msg` carrying the panic message, a normal return is
  `Except.ok`.  Methods taking `&mut self` are modelled by state passing:
  the method returns the receiver's state after the call (for methods that
  return `&mut Self` this is also the chained value; `matches` returns `()`
  in Rust, so for it the returned `Spec` is purely the post-state of the
  receiver).
* Rust's `Debug` rendering `format!("{:?}", x)` is an explicit parameter
  `dbg : S → String`; Rust's `PartialEq::eq` is an explicit parameter
  `peq : S → S → Bool`.
* The colour constants come from the `#[cfg(test)]` module `colours`
  (src/lib.rs lines 167-172), where all three are the empty string; the
  `cfg(not(test))` build uses ANSI escapes instead.  The repository's own
  panic-message expectations and the specified payload format are stated
  for the colour-free form.
-/

/-- TERM_RED from the cfg(test) `colours` module (src/lib.rs line 169). -/
def TERM_RED : String := ""

/-- TERM_BOLD from the cfg(test) `colours` module (src/lib.rs line 170). -/
def TERM_BOLD : String := ""

/-- TERM_RESET from the cfg(test) `colours` module (src/lib.rs line 171). -/
def TERM_RESET : String := ""

/-- An assertion (src/lib.rs lines 244-250).  `Spec<'s, S>` holds a borrowed
subject, an optional borrowed subject name, an optional owned location and an
optional borrowed description. -/
structure Spec (S : Type) where
  subject : S
  subject_name : Option String
  location : Option String
  description : Option String
deriving Repr, DecidableEq

/-- A description for an assertion (src/lib.rs lines 234-238), created by the
`asserting` function. -/
structure SpecDescription where
  value : String
  location : Option String
deriving Repr, DecidableEq

/-- A failed assertion (src/lib.rs lines 224-229).  In Rust it borrows the
spec (`spec: &'r T`) and reads its metadata through the `DescriptiveSpec`
accessors, which simply return the three metadata fields (src/lib.rs lines
291-303); here the captured metadata is stored directly. -/
structure AssertionFailure where
  subject_name : Option String
  location : Option String
  description : Option String
  expected : Option String
  actual : Option String
deriving Repr, DecidableEq

/-- `assert_that` (src/lib.rs lines 255-262): wraps a subject in a `Spec`
with no metadata set. -/
def assert_that {S : Type} (subject : S) : Spec S :=
  { subject := subject
    subject_name := none
    location := none
    description := none }

/-- `asserting` (src/lib.rs lines 265-270): describes an assertion. -/
def asserting (description : String) : SpecDescription :=
  { value := description
    location := none }

/-- `SpecDescription::at_location` (src/lib.rs lines 273-278). -/
def SpecDescription.at_location (d : SpecDescription) (location : String) :
    SpecDescription :=
  { d with location := some location }

/-- `SpecDescription::that` (src/lib.rs lines 281-288): creates a new
assertion, passing through its description and location. -/
def SpecDescription.that {S : Type} (d : SpecDescription) (subject : S) :
    Spec S :=
  { subject := subject
    subject_name := none
    location := d.location
    description := some d.value }

/-- `AssertionFailure::from_spec` (src/lib.rs lines 307-313): begins with
empty expected/actual, reading the spec's metadata via `DescriptiveSpec`. -/
def AssertionFailure.from_spec {S : Type} (spec : Spec S) : AssertionFailure :=
  { subject_name := spec.subject_name
    location := spec.location
    description := spec.description
    expected := none
    actual := none }

/-- `AssertionFailure::with_expected` (src/lib.rs lines 316-321). -/
def AssertionFailure.with_expected (f : AssertionFailure) (expected : String) :
    AssertionFailure :=
  { f with expected := some expected }

/-- `AssertionFailure::with_actual` (src/lib.rs lines 324-329). -/
def AssertionFailure.with_actual (f : AssertionFailure) (actual : String) :
    AssertionFailure :=
  { f with actual := some actual }

/-- `AssertionFailure::maybe_build_location` (src/lib.rs lines 368-373). -/
def AssertionFailure.maybe_build_location (f : AssertionFailure) : String :=
  match f.location with
  | some value => "\n\t" ++ TERM_BOLD ++ "at location: " ++ value ++ TERM_RESET ++ "\n"
  | none => ""

/-- `AssertionFailure::maybe_build_description` (src/lib.rs lines 375-380). -/
def AssertionFailure.maybe_build_description (f : AssertionFailure) : String :=
  match f.description with
  | some value => "\n\t" ++ TERM_BOLD ++ value ++ ":" ++ TERM_RESET
  | none => ""

/-- `AssertionFailure::maybe_build_subject_name` (src/lib.rs lines 382-387). -/
def AssertionFailure.maybe_build_subject_name (f : AssertionFailure) : String :=
  match f.subject_name with
  | some value => "\n\t" ++ TERM_BOLD ++ "for subject [" ++ value ++ "]" ++ TERM_RESET
  | none => ""

/-- `AssertionFailure::fail` (src/lib.rs lines 333-350): panics with
"invalid assertion" unless both expected and actual are set, otherwise panics
with the rendered message
`format!("\x7b\x7d\x7b\x7d\n\t\x7b\x7dexpected: \x7b\x7d\n\t but was: \x7b\x7d\x7b\x7d\n\x7b\x7d", description, subject_name, TERM_RED, expected, actual, TERM_RESET, location)`. -/
def AssertionFailure.fail (f : AssertionFailure) : Except String Unit :=
  if !f.expected.isSome || !f.actual.isSome then
    Except.error "invalid assertion"
  else
    Except.error
      (f.maybe_build_description ++ f.maybe_build_subject_name ++
        "\n\t" ++ TERM_RED ++ "expected: " ++ f.expected.getD "" ++
        "\n\t but was: " ++ f.actual.getD "" ++ TERM_RESET ++ "\n" ++
        f.maybe_build_location)

/-- `AssertionFailure::fail_with_message` (src/lib.rs lines 354-366): panics
with
`format!("\x7b\x7d\x7b\x7d\n\t\x7b\x7d\x7b\x7d\x7b\x7d\n\x7b\x7d", description, subject_name, TERM_RED, message, TERM_RESET, location)`. -/
def AssertionFailure.fail_with_message (f : AssertionFailure) (message : String) :
    Except String Unit :=
  Except.error
    (f.maybe_build_description ++ f.maybe_build_subject_name ++
      "\n\t" ++ TERM_RED ++ message ++ TERM_RESET ++ "\n" ++
      f.maybe_build_location)

/-- `Spec::at_location` (src/lib.rs lines 395-398): sets the location,
returning the receiver for chaining. -/
def Spec.at_location {S : Type} (spec : Spec S) (location : String) : Spec S :=
  { spec with location := some location }

/-- `Spec::named` (src/lib.rs lines 403-406): associates a name with the
subject, returning the receiver for chaining. -/
def Spec.named {S : Type} (spec : Spec S) (subject_name : String) : Spec S :=
  { spec with subject_name := some subject_name }

/-- `Spec::is_equal_to` (src/lib.rs lines 418-429).  `dbg` stands for the
`Debug` rendering `format!("\x7b:?\x7d", _)` and `peq` for `PartialEq::eq`. -/
def Spec.is_equal_to {S : Type} (dbg : S → String) (peq : S → S → Bool)
    (spec : Spec S) (expected : S) : Except String (Spec S) :=
  let subject := spec.subject
  if !peq subject expected then do
    (((AssertionFailure.from_spec spec).with_expected
        ("<" ++ dbg expected ++ ">")).with_actual
        ("<" ++ dbg subject ++ ">")).fail
    pure spec
  else
    pure spec

/-- `Spec::is_not_equal_to` (src/lib.rs lines 437-448). -/
def Spec.is_not_equal_to {S : Type} (dbg : S → String) (peq : S → S → Bool)
    (spec : Spec S) (expected : S) : Except String (Spec S) :=
  let subject := spec.subject
  if peq subject expected then do
    (((AssertionFailure.from_spec spec).with_expected
        ("<" ++ dbg subject ++ "> to not equal <" ++ dbg expected ++ ">")).with_actual
        "equal").fail
    pure spec
  else
    pure spec

/-- `Spec::matches` (src/lib.rs lines 463-472).  The Rust method takes
`&mut self` and returns `()`; the returned `Spec` here is the receiver's
state after the call. -/
def Spec.matches {S : Type} (dbg : S → String) (matching_function : S → Bool)
    (spec : Spec S) : Except String (Spec S) :=
  let subject := spec.subject
  if !matching_function subject then do
    (AssertionFailure.from_spec spec).fail_with_message
      ("expectation failed for value <" ++ dbg subject ++ ">")
    pure spec
  else
    pure spec

/-- `Spec::map` (src/lib.rs lines 481-490): transforms the subject through the
mapping function, carrying over subject_name, (cloned) location and
description. -/
def Spec.map {S T : Type} (spec : Spec S) (mapping_function : S → T) : Spec T :=
  { subject := mapping_function spec.subject
    subject_name := spec.subject_name
    location := spec.location
    description := spec.description }

/-- `OptionAssertions::is_some` for `Spec<'s, Option<T>>` (src/option.rs lines
67-84): on `Some` returns a new `Spec` over the contained value carrying the
metadata over; on `None` it fails (the trailing `unreachable!()` after the
panic is modelled by a dead error branch). -/
def Spec.is_some {T : Type} (spec : Spec (Option T)) : Except String (Spec T) :=
  match spec.subject with
  | some val =>
      Except.ok
        { subject := val
          subject_name := spec.subject_name
          location := spec.location
          description := spec.description }
  | none => do
      (((AssertionFailure.from_spec spec).with_expected
          "option[some]").with_actual "option[none]").fail
      Except.error "internal: unreachable after fail"

/-!
Specification-side definitions.  These follow the wording of the
specification (not the source) and exist to be compared with the
source-derived definitions above.
-/

/-- Modelled from the spec: the failure payload format of spec section 6 read
with literal substitution of the raw field values, i.e. the subject-name
segment is exactly a tab followed by the bare subject name.  Each optional
segment is omitted entirely when the field is absent. -/
def claimedPayloadFormat (d n l : Option String) (expected actual : String) :
    String :=
  (match d with
    | some v => "\n\t" ++ v ++ ":"
    | none => "") ++
  (match n with
    | some v => "\n\t" ++ v
    | none => "") ++
  ("\n\texpected: " ++ expected ++ "\n\t but was: " ++ actual ++ "\n") ++
  (match l with
    | some v => "\n\tat location: " ++ v ++ "\n"
    | none => "")

/-- Modelled from the spec as amended: the failure payload format with the
subject-name segment rendered as `for subject [name]` (the form the spec's
own concrete scenario 4 displays).  Each optional segment is omitted entirely
when the field is absent. -/
def specPayloadFormat (d n l : Option String) (expected actual : String) :
    String :=
  (match d with
    | some v => "\n\t" ++ v ++ ":"
    | none => "") ++
  (match n with
    | some v => "\n\tfor subject [" ++ v ++ "]"
    | none => "") ++
  ("\n\texpected: " ++ expected ++ "\n\t but was: " ++ actual ++ "\n") ++
  (match l with
    | some v => "\n\tat location: " ++ v ++ "\n"
    | none => "")

/-- Modelled from the spec: the free-form message payload (spec section 4.2,
`fail_with_message`): description, subject name, the raw message, location,
with no expected/actual segment. -/
def specFreeMessageFormat (d n l : Option String) (message : String) : String :=
  (match d with
    | some v => "\n\t" ++ v ++ ":"
    | none => "") ++
  (match n with
    | some v => "\n\tfor subject [" ++ v ++ "]"
    | none => "") ++
  ("\n\t" ++ message ++ "\n") ++
  (match l with
    | some v => "\n\tat location: " ++ v ++ "\n"
    | none => "")

/-- A string `pat` occurs as a contiguous substring of `s`. -/
def substrOf (pat s : String) : Prop :=
  ∃ before after, s = before ++ pat ++ after

/-!
Helper lemmas about string concatenation of the literal fragments that the
renderer emits.
-/

theorem cat_for_subject (s : String) :
    "\n\t" ++ ("for subject [" ++ s) = "\n\tfor subject [" ++ s := by
  rw [← String.append_assoc]; rfl

theorem cat_expected (s : String) :
    "\n\t" ++ ("expected: " ++ s) = "\n\texpected: " ++ s := by
  rw [← String.append_assoc]; rfl

theorem cat_at_location (s : String) :
    "\n\t" ++ ("at location: " ++ s) = "\n\tat location: " ++ s := by
  rw [← String.append_assoc]; rfl

theorem cat_rbracket_expected (s : String) :
    "]" ++ ("\n\texpected: " ++ s) = "]\n\texpected: " ++ s := by
  rw [← String.append_assoc]; rfl

theorem cat_colon_expected (s : String) :
    ":" ++ ("\n\texpected: " ++ s) = ":\n\texpected: " ++ s := by
  rw [← String.append_assoc]; rfl

theorem cat_rbracket_tab (s : String) :
    "]" ++ ("\n\t" ++ s) = "]\n\t" ++ s := by
  rw [← String.append_assoc]; rfl

theorem cat_colon_tab (s : String) :
    ":" ++ ("\n\t" ++ s) = ":\n\t" ++ s := by
  rw [← String.append_assoc]; rfl

/-- Central renderer lemma: `fail` with both expected and actual set raises
exactly the specified payload format (with the `for subject [...]` subject
name segment). -/
theorem fail_renders_spec_format (n l d : Option String) (e a : String) :
    (AssertionFailure.mk n l d (some e) (some a)).fail
      = Except.error (specPayloadFormat d n l e a) := by
  cases d <;> cases n <;> cases l <;>
    simp [AssertionFailure.fail, AssertionFailure.maybe_build_description,
      AssertionFailure.maybe_build_subject_name,
      AssertionFailure.maybe_build_location, specPayloadFormat,
      TERM_RED, TERM_BOLD, TERM_RESET, String.append_empty,
      String.empty_append, String.append_assoc, cat_for_subject,
      cat_expected, cat_at_location, cat_rbracket_expected,
      cat_colon_expected, cat_rbracket_tab, cat_colon_tab]

/-- Central renderer lemma for `fail_with_message`: it raises exactly the
specified free-form payload format. -/
theorem fail_with_message_renders (n l d : Option String) (ex ac : Option String)
    (message : String) :
    (AssertionFailure.mk n l d ex ac).fail_with_message message
      = Except.error (specFreeMessageFormat d n l message) := by
  cases d <;> cases n <;> cases l <;>
    simp [AssertionFailure.fail_with_message,
      AssertionFailure.maybe_build_description,
      AssertionFailure.maybe_build_subject_name,
      AssertionFailure.maybe_build_location, specFreeMessageFormat,
      TERM_RED, TERM_BOLD, TERM_RESET, String.append_empty,
      String.empty_append, String.append_assoc, cat_for_subject,
      cat_expected, cat_at_location, cat_rbracket_expected,
      cat_colon_expected, cat_rbracket_tab, cat_colon_tab]

theorem cat_butwas (s : String) :
    "\n\t" ++ (" but was: " ++ s) = "\n\t but was: " ++ s := by
  rw [← String.append_assoc]; rfl

/-- Building a failure from a spec and setting expected and actual, then
failing, raises the specified payload format over the spec's metadata. -/
theorem build_fail_eq {S : Type} (spec : Spec S) (x y : String) :
    (((AssertionFailure.from_spec spec).with_expected x).with_actual y).fail
      = Except.error
          (specPayloadFormat spec.description spec.subject_name spec.location x y) := by
  obtain ⟨s, n, l, d⟩ := spec
  exact fail_renders_spec_format n l d x y

/-- A free-form failure built from a spec raises the specified free-form
payload format over the spec's metadata. -/
theorem build_fail_with_message_eq {S : Type} (spec : Spec S) (m : String) :
    (AssertionFailure.from_spec spec).fail_with_message m
      = Except.error
          (specFreeMessageFormat spec.description spec.subject_name spec.location m) := by
  obtain ⟨s, n, l, d⟩ := spec
  exact fail_with_message_renders n l d none none m

theorem substr_expected_generic (ds ns ls E A : String) :
    substrOf ("expected: " ++ E)
      (ds ++ ns ++ ("\n\texpected: " ++ E ++ "\n\t but was: " ++ A ++ "\n") ++ ls) := by
  refine ⟨ds ++ ns ++ "\n\t", "\n\t but was: " ++ A ++ "\n" ++ ls, ?_⟩
  simp [String.append_assoc, cat_expected]

theorem substr_butwas_generic (ds ns ls E A : String) :
    substrOf (" but was: " ++ A)
      (ds ++ ns ++ ("\n\texpected: " ++ E ++ "\n\t but was: " ++ A ++ "\n") ++ ls) := by
  refine ⟨ds ++ ns ++ ("\n\texpected: " ++ E) ++ "\n\t", "\n" ++ ls, ?_⟩
  simp [String.append_assoc, cat_expected, cat_butwas]

/-!
Claim theorems.
-/

/-- Claim C1, counterexample: with all metadata present the rendered failure
message wraps the subject name as `for subject [n]`, so it is not the literal
template `\n\t` followed by the bare subject name that the claim states. -/
theorem c1_counterexample_subject_name_segment :
    (AssertionFailure.mk (some "n") (some "loc") (some "desc")
        (some "<2>") (some "<1>")).fail
      = Except.error
          "\n\tdesc:\n\tfor subject [n]\n\texpected: <2>\n\t but was: <1>\n\n\tat location: loc\n"
    ∧ "\n\tdesc:\n\tfor subject [n]\n\texpected: <2>\n\t but was: <1>\n\n\tat location: loc\n"
      ≠ claimedPayloadFormat (some "desc") (some "n") (some "loc") "<2>" "<1>" :=
  ⟨rfl, by decide⟩

/-- Claim C1 (amended): for every failing assertion with both expected and
actual strings set, the rendered failure message incorporates, in fixed
order, the description, the subject name, the expected/actual block and the
location, matching the payload format in which the subject-name segment is
rendered as `\n\tfor subject [subject_name]`; any absent optional field
causes exactly its segment to be omitted entirely, with no empty placeholder
left behind. -/
theorem c1_fail_message_format (n l d : Option String) (e a : String) :
    (AssertionFailure.mk n l d (some e) (some a)).fail
      = Except.error (specPayloadFormat d n l e a) :=
  fail_renders_spec_format n l d e a

/-- Claim C6: `fail` with either the expected or the actual string unset
raises the fixed message "invalid assertion"; with both set it raises the
full structured message. -/
theorem c6_fail_requires_expected_and_actual (f : AssertionFailure) :
    ((f.expected = none ∨ f.actual = none) →
      f.fail = Except.error "invalid assertion")
    ∧ (∀ e a, f.expected = some e → f.actual = some a →
        f.fail = Except.error
          (specPayloadFormat f.description f.subject_name f.location e a)) := by
  obtain ⟨n, l, d, ex, ac⟩ := f
  constructor
  · rintro (h | h) <;> simp only at h <;> subst h <;>
      simp [AssertionFailure.fail]
  · intro e a he ha
    simp only at he ha
    subst he; subst ha
    exact fail_renders_spec_format n l d e a

/-- Witness for C6 at concrete inputs: an actual-only failure raises
"invalid assertion", a fully set failure raises the structured message. -/
theorem c6_fail_requires_expected_and_actual_witness :
    (AssertionFailure.mk none none none none (some "a")).fail
      = Except.error "invalid assertion"
    ∧ (AssertionFailure.mk none none none (some "e") (some "a")).fail
      = Except.error (specPayloadFormat none none none "e" "a") :=
  ⟨(c6_fail_requires_expected_and_actual _).1 (Or.inl rfl),
   (c6_fail_requires_expected_and_actual _).2 "e" "a" rfl rfl⟩

/-- With equal subject and expected value, `is_equal_to` returns the spec. -/
theorem is_equal_to_ok {S : Type} (dbg : S → String) (peq : S → S → Bool)
    (spec : Spec S) (e : S) (h : peq spec.subject e = true) :
    spec.is_equal_to dbg peq e = Except.ok spec := by
  simp [Spec.is_equal_to, h]
  rfl

/-- With unequal subject and expected value, `is_equal_to` raises the
rendered payload. -/
theorem is_equal_to_err {S : Type} (dbg : S → String) (peq : S → S → Bool)
    (spec : Spec S) (e : S) (h : peq spec.subject e = false) :
    spec.is_equal_to dbg peq e
      = Except.error
          (specPayloadFormat spec.description spec.subject_name spec.location
            ("<" ++ dbg e ++ ">") ("<" ++ dbg spec.subject ++ ">")) := by
  simp [Spec.is_equal_to, h, build_fail_eq]

/-- Claim C2: `is_equal_to` raises exactly when the subject and the expected
value are unequal under the subject type's equality; on success it returns
the unchanged spec, and on failure the raised message carries the expected
text `<debug of e>` and the actual text `<debug of s>`. -/
theorem c2_is_equal_to_characterisation {S : Type} (dbg : S → String)
    (peq : S → S → Bool) (spec : Spec S) (e : S) :
    (peq spec.subject e = true →
      spec.is_equal_to dbg peq e = Except.ok spec)
    ∧ (peq spec.subject e = false →
        ∃ msg, spec.is_equal_to dbg peq e = Except.error msg
          ∧ msg = specPayloadFormat spec.description spec.subject_name
              spec.location ("<" ++ dbg e ++ ">") ("<" ++ dbg spec.subject ++ ">")
          ∧ substrOf ("expected: " ++ ("<" ++ dbg e ++ ">")) msg
          ∧ substrOf (" but was: " ++ ("<" ++ dbg spec.subject ++ ">")) msg) := by
  constructor
  · intro h
    simp [Spec.is_equal_to, h]
    rfl
  · intro h
    refine ⟨_, ?_, rfl, ?_, ?_⟩
    · simp [Spec.is_equal_to, h, build_fail_eq]
    · unfold specPayloadFormat
      exact substr_expected_generic _ _ _ _ _
    · unfold specPayloadFormat
      exact substr_butwas_generic _ _ _ _ _

/-- Witness for C2 over natural-number subjects: equal subjects succeed,
unequal subjects raise with the rendered expected and actual texts. -/
theorem c2_is_equal_to_characterisation_witness :
    (assert_that (1 : Nat)).is_equal_to (fun v => toString v) (fun a b => a == b) 1
      = Except.ok (assert_that 1)
    ∧ ∃ msg,
        (assert_that (1 : Nat)).is_equal_to (fun v => toString v) (fun a b => a == b) 2
          = Except.error msg
        ∧ msg = specPayloadFormat none none none "<2>" "<1>"
        ∧ substrOf ("expected: " ++ "<2>") msg
        ∧ substrOf (" but was: " ++ "<1>") msg :=
  ⟨(c2_is_equal_to_characterisation _ _ _ _).1 rfl,
   (c2_is_equal_to_characterisation (fun v => toString v) (fun a b => a == b)
      (assert_that 1) 2).2 rfl⟩

/-- Claim C3: `is_not_equal_to` succeeds exactly when `is_equal_to` fails
(it raises precisely when the subject equals the expected value), and on
failure the actual text of the message is "equal". -/
theorem c3_is_not_equal_to_negation {S : Type} (dbg : S → String)
    (peq : S → S → Bool) (spec : Spec S) (e : S) :
    ((spec.is_not_equal_to dbg peq e).isOk
        = !(spec.is_equal_to dbg peq e).isOk)
    ∧ ((∃ m, spec.is_not_equal_to dbg peq e = Except.error m)
        ↔ peq spec.subject e = true)
    ∧ (peq spec.subject e = true →
        spec.is_not_equal_to dbg peq e
          = Except.error
              (specPayloadFormat spec.description spec.subject_name spec.location
                ("<" ++ dbg spec.subject ++ "> to not equal <" ++ dbg e ++ ">")
                "equal")
        ∧ substrOf " but was: equal"
            (specPayloadFormat spec.description spec.subject_name spec.location
              ("<" ++ dbg spec.subject ++ "> to not equal <" ++ dbg e ++ ">")
              "equal"))
    ∧ (peq spec.subject e = false →
        spec.is_not_equal_to dbg peq e = Except.ok spec) := by
  have hfail : peq spec.subject e = true →
      spec.is_not_equal_to dbg peq e
        = Except.error
            (specPayloadFormat spec.description spec.subject_name spec.location
              ("<" ++ dbg spec.subject ++ "> to not equal <" ++ dbg e ++ ">")
              "equal") := by
    intro h
    simp [Spec.is_not_equal_to, h, build_fail_eq]
  have hok : peq spec.subject e = false →
      spec.is_not_equal_to dbg peq e = Except.ok spec := by
    intro h
    simp [Spec.is_not_equal_to, h]
    rfl
  refine ⟨?_, ?_, ?_, hok⟩
  · cases h : peq spec.subject e with
    | true =>
        rw [hfail h, is_equal_to_ok dbg peq spec e h]
        rfl
    | false =>
        rw [hok h, is_equal_to_err dbg peq spec e h]
        rfl
  · constructor
    · rintro ⟨m, hm⟩
      cases h : peq spec.subject e with
      | true => rfl
      | false => rw [hok h] at hm; exact absurd hm (by simp)
    · intro h
      exact ⟨_, hfail h⟩
  · intro h
    refine ⟨hfail h, ?_⟩
    have := substr_butwas_generic
      (match spec.description with
        | some v => "\n\t" ++ v ++ ":"
        | none => "")
      (match spec.subject_name with
        | some v => "\n\tfor subject [" ++ v ++ "]"
        | none => "")
      (match spec.location with
        | some v => "\n\tat location: " ++ v ++ "\n"
        | none => "")
      ("<" ++ dbg spec.subject ++ "> to not equal <" ++ dbg e ++ ">") "equal"
    unfold specPayloadFormat
    exact this

/-- Witness for C3 over natural-number subjects: on equal subjects
`is_not_equal_to` raises with actual text "equal" while `is_equal_to`
succeeds, and on unequal subjects `is_not_equal_to` succeeds. -/
theorem c3_is_not_equal_to_negation_witness :
    ((assert_that (1 : Nat)).is_not_equal_to (fun v => toString v)
        (fun a b => a == b) 1).isOk
      = !((assert_that (1 : Nat)).is_equal_to (fun v => toString v)
            (fun a b => a == b) 1).isOk
    ∧ (∃ m, (assert_that (1 : Nat)).is_not_equal_to (fun v => toString v)
        (fun a b => a == b) 1 = Except.error m)
    ∧ (assert_that (1 : Nat)).is_not_equal_to (fun v => toString v)
        (fun a b => a == b) 2
      = Except.ok (assert_that 1) :=
  ⟨(c3_is_not_equal_to_negation (fun v => toString v) (fun a b => a == b)
      (assert_that 1) 1).1,
   (c3_is_not_equal_to_negation (fun v => toString v) (fun a b => a == b)
      (assert_that 1) 1).2.1.mpr rfl,
   (c3_is_not_equal_to_negation (fun v => toString v) (fun a b => a == b)
      (assert_that 1) 2).2.2.2 rfl⟩

/-- Claim C4: `matches` raises exactly when the predicate returns false, and
the raised failure carries only the single free-form message
`expectation failed for value <debug of subject>`: the message payload is
the free-form format, which has no expected/actual segment. -/
theorem c4_matches_free_message {S : Type} (dbg : S → String) (p : S → Bool)
    (spec : Spec S) :
    (p spec.subject = true → spec.matches dbg p = Except.ok spec)
    ∧ (p spec.subject = false →
        spec.matches dbg p
          = Except.error
              (specFreeMessageFormat spec.description spec.subject_name
                spec.location
                ("expectation failed for value <" ++ dbg spec.subject ++ ">"))) := by
  constructor
  · intro h
    simp [Spec.matches, h]
    rfl
  · intro h
    simp [Spec.matches, h, build_fail_with_message_eq]

/-- Witness for C4 at the spec's concrete scenario: a metadata-free
assertion on the string "Hello" against the predicate comparing to "Hi"
raises exactly the single free-form message. -/
theorem c4_matches_free_message_witness :
    (assert_that "Hello").matches (fun v => "\"" ++ v ++ "\"")
        (fun v => v == "Hi")
      = Except.error "\n\texpectation failed for value <\"Hello\">\n"
    ∧ (assert_that "Hello").matches (fun v => "\"" ++ v ++ "\"")
        (fun v => v == "Hello")
      = Except.ok (assert_that "Hello") :=
  ⟨(c4_matches_free_message (fun v => "\"" ++ v ++ "\"") (fun v => v == "Hi")
      (assert_that "Hello")).2 rfl,
   (c4_matches_free_message (fun v => "\"" ++ v ++ "\"") (fun v => v == "Hello")
      (assert_that "Hello")).1 rfl⟩

/-- Claim C5: `map f` followed by `is_equal_to e` behaves exactly as
`is_equal_to e` on a spec over `f` of the subject with the same metadata:
it succeeds precisely when the mapped value equals `e` and raises precisely
when it does not. -/
theorem c5_map_preserves_equality {S T : Type} (dbg : T → String)
    (peq : T → T → Bool) (spec : Spec S) (f : S → T) (e : T) :
    (spec.map f).subject = f spec.subject
    ∧ ((spec.map f).is_equal_to dbg peq e
        = (Spec.mk (f spec.subject) spec.subject_name spec.location
            spec.description).is_equal_to dbg peq e)
    ∧ (peq (f spec.subject) e = true →
        (spec.map f).is_equal_to dbg peq e = Except.ok (spec.map f))
    ∧ (peq (f spec.subject) e = false →
        ∃ m, (spec.map f).is_equal_to dbg peq e = Except.error m) := by
  refine ⟨rfl, rfl, ?_, ?_⟩
  · intro h
    exact is_equal_to_ok dbg peq (spec.map f) e h
  · intro h
    exact ⟨_, is_equal_to_err dbg peq (spec.map f) e h⟩

/-- Witness for C5: mapping the subject 3 through doubling and comparing
with 6 succeeds, while comparing with 5 raises. -/
theorem c5_map_preserves_equality_witness :
    ((assert_that (3 : Nat)).map (fun v => v * 2)).is_equal_to
        (fun v => toString v) (fun a b => a == b) 6
      = Except.ok ((assert_that (3 : Nat)).map (fun v => v * 2))
    ∧ ∃ m, ((assert_that (3 : Nat)).map (fun v => v * 2)).is_equal_to
        (fun v => toString v) (fun a b => a == b) 5
      = Except.error m :=
  ⟨(c5_map_preserves_equality (fun v => toString v) (fun a b => a == b)
      (assert_that 3) (fun v => v * 2) 6).2.2.1 rfl,
   (c5_map_preserves_equality (fun v => toString v) (fun a b => a == b)
      (assert_that 3) (fun v => v * 2) 5).2.2.2 rfl⟩

/-- A metadata-setting call on a `Spec`: either `named` or `at_location`. -/
inductive MetaCall where
  | named (subject_name : String)
  | at_location (location : String)
deriving Repr, DecidableEq

/-- Apply one metadata-setting call to a spec. -/
def applyMeta {S : Type} (spec : Spec S) (c : MetaCall) : Spec S :=
  match c with
  | .named n => spec.named n
  | .at_location l => spec.at_location l

/-- The first option if set, otherwise the fallback. -/
def orFallback (a b : Option String) : Option String :=
  match a with
  | some x => some x
  | none => b

/-- The argument of the last `named` call in a sequence, if any. -/
def lastNamedArg : List MetaCall → Option String
  | [] => none
  | c :: cs =>
    orFallback (lastNamedArg cs)
      (match c with
        | .named n => some n
        | .at_location _ => none)

/-- The argument of the last `at_location` call in a sequence, if any. -/
def lastLocationArg : List MetaCall → Option String
  | [] => none
  | c :: cs =>
    orFallback (lastLocationArg cs)
      (match c with
        | .named _ => none
        | .at_location l => some l)

/-- Claim C7: applying any sequence of `named` and `at_location` calls is
last-write-wins: the resulting subject_name is the argument of the last
`named` call (or the original value if there was none), the resulting
location is the argument of the last `at_location` call (or the original
value), and the subject and description are untouched. -/
theorem c7_metadata_last_write_wins {S : Type} (spec : Spec S)
    (cs : List MetaCall) :
    (cs.foldl applyMeta spec).subject = spec.subject
    ∧ (cs.foldl applyMeta spec).description = spec.description
    ∧ (cs.foldl applyMeta spec).subject_name
        = orFallback (lastNamedArg cs) spec.subject_name
    ∧ (cs.foldl applyMeta spec).location
        = orFallback (lastLocationArg cs) spec.location := by
  induction cs generalizing spec with
  | nil => exact ⟨rfl, rfl, rfl, rfl⟩
  | cons c cs ih =>
    obtain ⟨ih1, ih2, ih3, ih4⟩ := ih (applyMeta spec c)
    refine ⟨?_, ?_, ?_, ?_⟩
    · rw [List.foldl_cons, ih1]
      cases c <;> rfl
    · rw [List.foldl_cons, ih2]
      cases c <;> rfl
    · rw [List.foldl_cons, ih3]
      cases h : lastNamedArg cs with
      | some n => simp [lastNamedArg, h, orFallback]
      | none =>
          cases c <;>
            simp [lastNamedArg, h, orFallback, applyMeta, Spec.named,
              Spec.at_location]
    · rw [List.foldl_cons, ih4]
      cases h : lastLocationArg cs with
      | some l => simp [lastLocationArg, h, orFallback]
      | none =>
          cases c <;>
            simp [lastLocationArg, h, orFallback, applyMeta, Spec.named,
              Spec.at_location]

/-- Claim C8: `assert_that` builds a spec over the given subject with all
metadata unset; `asserting(d).that(s)` builds a spec carrying the
description, the description's location (set through `at_location` or left
unset) and no subject name. -/
theorem c8_constructors {S : Type} (s : S) (d loc : String)
    (sd : SpecDescription) :
    (assert_that s).subject = s
    ∧ (assert_that s).subject_name = none
    ∧ (assert_that s).location = none
    ∧ (assert_that s).description = none
    ∧ ((asserting d).that s).subject = s
    ∧ ((asserting d).that s).description = some d
    ∧ ((asserting d).that s).location = none
    ∧ ((asserting d).that s).subject_name = none
    ∧ (((asserting d).at_location loc).that s).location = some loc
    ∧ (((asserting d).at_location loc).that s).description = some d
    ∧ (sd.that s).subject = s
    ∧ (sd.that s).description = some sd.value
    ∧ (sd.that s).location = sd.location
    ∧ (sd.that s).subject_name = none :=
  ⟨rfl, rfl, rfl, rfl, rfl, rfl, rfl, rfl, rfl, rfl, rfl, rfl, rfl, rfl⟩

/-- Claim C9: `is_some` on a `Some` subject returns a projected spec over
the contained value with subject_name, location and description carried
over unchanged; on a `None` subject it raises a failure instead of
returning a value. -/
theorem c9_is_some_projects {T : Type} (spec : Spec (Option T)) :
    (∀ v, spec.subject = some v →
      spec.is_some
        = Except.ok
            (Spec.mk v spec.subject_name spec.location spec.description))
    ∧ (spec.subject = none →
        spec.is_some
          = Except.error
              (specPayloadFormat spec.description spec.subject_name
                spec.location "option[some]" "option[none]")) := by
  constructor
  · intro v hv
    simp [Spec.is_some, hv]
  · intro hv
    simp [Spec.is_some, hv, build_fail_eq]
    rfl

/-- Witness for C9: a `Some` subject is unwrapped with metadata carried
over, a `None` subject raises. -/
theorem c9_is_some_projects_witness :
    ((assert_that (some 7 : Option Nat)).named "n").is_some
      = Except.ok (Spec.mk 7 (some "n") none none)
    ∧ (assert_that (none : Option Nat)).is_some
      = Except.error (specPayloadFormat none none none "option[some]" "option[none]") :=
  ⟨(c9_is_some_projects ((assert_that (some 7 : Option Nat)).named "n")).1 7 rfl,
   (c9_is_some_projects (assert_that (none : Option Nat))).2 rfl⟩

/-- Claim C10: on the success path, `is_equal_to`, `is_not_equal_to` and
`matches` leave the spec completely unchanged: the resulting receiver state
is exactly the original spec, with the same subject and metadata fields. -/
theorem c10_success_leaves_spec_unchanged {S : Type} (dbg : S → String)
    (peq : S → S → Bool) (p : S → Bool) (spec : Spec S) (e : S) :
    (peq spec.subject e = true →
      spec.is_equal_to dbg peq e = Except.ok spec)
    ∧ (peq spec.subject e = false →
        spec.is_not_equal_to dbg peq e = Except.ok spec)
    ∧ (p spec.subject = true →
        spec.matches dbg p = Except.ok spec) := by
  refine ⟨?_, ?_, ?_⟩
  · intro h
    exact is_equal_to_ok dbg peq spec e h
  · intro h
    simp [Spec.is_not_equal_to, h]
    rfl
  · intro h
    simp [Spec.matches, h]
    rfl

/-- Witness for C10 at concrete inputs: the three success paths all return
the original metadata-free spec over the subject 1. -/
theorem c10_success_leaves_spec_unchanged_witness :
    (assert_that (1 : Nat)).is_equal_to (fun v => toString v)
        (fun a b => a == b) 1
      = Except.ok (assert_that 1)
    ∧ (assert_that (1 : Nat)).is_not_equal_to (fun v => toString v)
        (fun a b => a == b) 2
      = Except.ok (assert_that 1)
    ∧ (assert_that (1 : Nat)).matches (fun v => toString v) (fun v => v == 1)
      = Except.ok (assert_that 1) :=
  ⟨(c10_success_leaves_spec_unchanged (fun v => toString v) (fun a b => a == b)
      (fun v => v == 1) (assert_that 1) 1).1 rfl,
   (c10_success_leaves_spec_unchanged (fun v => toString v) (fun a b => a == b)
      (fun v => v == 1) (assert_that 1) 2).2.1 rfl,
   (c10_success_leaves_spec_unchanged (fun v => toString v) (fun a b => a == b)
      (fun v => v == 1) (assert_that 1) 1).2.2 rfl⟩
